import Mathlib

/-!
Shallow embedding of `bevy_instancing` (src/src/lib.rs), a bevy 0.9 plugin
for GPU-instanced drawing, together with proofs about its per-frame stages:
Prepare (`prepare_instance_buffers`), Queue (`queue_instance_material_meshes`),
Render (`DrawMeshInstanced::render`) and pipeline specialization
(`InstanceMaterialPipeline::specialize`).

Machine integers are Nat with explicit `% 2^32` where u32 wrap-around could
matter; f32 scalars (distances, depth bias) are embedded as ℚ; GPU buffers are
identified by their byte contents (`List Nat`); external handle tables
(`RenderAssets<Mesh>`, `RenderMaterials<M>`) are functions into `Option`.
-/

namespace BevyInstancing

/-! ## MeshPipelineKey (bevy 0.9 `bevy_pbr::MeshPipelineKey` bitflags)

The source ORs these flag fragments together (lib.rs lines 183-220).  The bit
layout below is the one from bevy 0.9's `MeshPipelineKey`:
`TRANSPARENT_MAIN_PASS = 1 <<< 0`, `HDR = 1 <<< 1`, `TONEMAP_IN_SHADER = 1 <<< 2`,
`DEBAND_DITHER = 1 <<< 3`, MSAA sample bits in bits 29..31 and primitive
topology bits in bits 26..28. -/

def TRANSPARENT_MAIN_PASS : Nat := 1 <<< 0

def HDR : Nat := 1 <<< 1

def TONEMAP_IN_SHADER : Nat := 1 <<< 2

def DEBAND_DITHER : Nat := 1 <<< 3

def MSAA_MASK_BITS : Nat := 0b111

def MSAA_SHIFT_BITS : Nat := 32 - 3

def PRIMITIVE_TOPOLOGY_MASK_BITS : Nat := 0b111

def PRIMITIVE_TOPOLOGY_SHIFT_BITS : Nat := MSAA_SHIFT_BITS - 3

/-- `u32::trailing_zeros`, fuel-bounded: 32 for input 0 (mod 2^32). -/
def trailingZerosAux : Nat → Nat → Nat
  | 0, _ => 0
  | fuel + 1, n => if n % 2 = 1 then 0 else 1 + trailingZerosAux fuel (n / 2)

def u32TrailingZeros (n : Nat) : Nat :=
  if n % 2 ^ 32 = 0 then 32 else trailingZerosAux 32 (n % 2 ^ 32)

/-- bevy 0.9 `MeshPipelineKey::from_msaa_samples`. -/
def from_msaa_samples (msaa_samples : Nat) : Nat :=
  (u32TrailingZeros msaa_samples &&& MSAA_MASK_BITS) <<< MSAA_SHIFT_BITS

/-- bevy 0.9 `MeshPipelineKey::from_hdr`. -/
def from_hdr (hdr : Bool) : Nat :=
  if hdr then HDR else 0

/-- wgpu `PrimitiveTopology` discriminants. -/
inductive PrimitiveTopology
  | PointList
  | LineList
  | LineStrip
  | TriangleList
  | TriangleStrip
deriving DecidableEq, Repr

def PrimitiveTopology.toNat : PrimitiveTopology → Nat
  | .PointList => 0
  | .LineList => 1
  | .LineStrip => 2
  | .TriangleList => 3
  | .TriangleStrip => 4

/-- bevy 0.9 `MeshPipelineKey::from_primitive_topology`. -/
def from_primitive_topology (primitive_topology : PrimitiveTopology) : Nat :=
  (primitive_topology.toNat &&& PRIMITIVE_TOPOLOGY_MASK_BITS) <<<
    PRIMITIVE_TOPOLOGY_SHIFT_BITS

/-- bevy 0.9 `Tonemapping` component. -/
inductive Tonemapping
  | Disabled
  | Enabled (deband_dither : Bool)
deriving DecidableEq, Repr

/-- bevy `AlphaMode`; the mask threshold f32 is embedded as ℚ. -/
inductive AlphaMode
  | Opaque
  | Mask (threshold : ℚ)
  | Blend
deriving DecidableEq, Repr

/-- The per-view key fragment computed by `queue_instance_material_meshes`
(lib.rs lines 183-194): msaa | hdr, then TONEMAP_IN_SHADER only when a
`Tonemapping::Enabled` component is present and the view is not HDR, and
DEBAND_DITHER additionally when `deband_dither` is requested. -/
def view_key (msaa_samples : Nat) (hdr : Bool) (tonemapping : Option Tonemapping) :
    Nat :=
  let base := from_msaa_samples msaa_samples ||| from_hdr hdr
  match tonemapping with
  | some (Tonemapping.Enabled deband_dither) =>
    if !hdr then
      let k := base ||| TONEMAP_IN_SHADER
      if deband_dither then k ||| DEBAND_DITHER else k
    else base
  | _ => base

/-- The per-entity mesh key (lib.rs lines 215-220): topology fragment OR view
key, plus TRANSPARENT_MAIN_PASS exactly when the alpha mode is `Blend`. -/
def mesh_key (topology : PrimitiveTopology) (vkey : Nat) (alpha_mode : AlphaMode) :
    Nat :=
  let k := from_primitive_topology topology ||| vkey
  match alpha_mode with
  | AlphaMode.Blend => k ||| TRANSPARENT_MAIN_PASS
  | _ => k

/-! ## Rangefinder and sort distance (lib.rs lines 195, 239)

`view.rangefinder3d()` yields row 2 of the inverse view matrix; its
`distance(transform)` is that row dotted with column 3 (`w_axis`) of the
model matrix.  f32 arithmetic is embedded over ℚ. -/

structure Vec4 where
  x : ℚ
  y : ℚ
  z : ℚ
  w : ℚ
deriving DecidableEq, Repr

def Vec4.dot (a b : Vec4) : ℚ :=
  a.x * b.x + a.y * b.y + a.z * b.z + a.w * b.w

/-- glam `Mat4`; only `w_axis` (= `col(3)`) is read by the rangefinder. -/
structure Mat4 where
  x_axis : Vec4
  y_axis : Vec4
  z_axis : Vec4
  w_axis : Vec4
deriving DecidableEq, Repr

/-- bevy 0.9 `ViewRangefinder3d`. -/
structure ViewRangefinder3d where
  inverse_view_row_2 : Vec4
deriving DecidableEq, Repr

def ViewRangefinder3d.distance (rf : ViewRangefinder3d) (transform : Mat4) : ℚ :=
  rf.inverse_view_row_2.dot transform.w_axis

/-- The sort distance of lib.rs line 239:
`rangefinder.distance(&mesh_uniform.transform) + material.properties.depth_bias`. -/
def sort_distance (rf : ViewRangefinder3d) (transform : Mat4) (depth_bias : ℚ) :
    ℚ :=
  rf.distance transform + depth_bias

/-! ## Instance buffers (lib.rs lines 77-99)

A record of the application's `InstanceData` type is embedded as its byte
sequence (`bytemuck` requires `Pod`, so a record is exactly its bytes); a
GPU buffer is identified by its byte contents. -/

structure InstanceBuffer where
  buffer : List Nat
  length : Nat
deriving DecidableEq, Repr

/-- `bytemuck::cast_slice` on a `&[D]` of Pod records: the concatenation of
the records' bytes. -/
def cast_slice (records : List (List Nat)) : List Nat :=
  records.flatten

/-- Body of the `prepare_instance_buffers` loop for one entity (lib.rs lines
88-97): create a buffer from the snapshot's bytes and store it with the
snapshot's record count. -/
def prepare_instance_buffer (instance_data : List (List Nat)) : InstanceBuffer :=
  { buffer := cast_slice instance_data
    length := instance_data.length }

/-- `prepare_instance_buffers` over the whole query: one buffer per entity
holding an `InstanceDataVec`. -/
def prepare_instance_buffers (query : List (Nat × List (List Nat))) :
    List (Nat × InstanceBuffer) :=
  query.map fun (entity, instance_data) => (entity, prepare_instance_buffer instance_data)

/-! ## The draw executor `DrawMeshInstanced::render` (lib.rs lines 109-147) -/

inductive IndexFormat
  | Uint16
  | Uint32
deriving DecidableEq, Repr

/-- bevy `GpuBufferInfo`. -/
inductive GpuBufferInfo
  | Indexed (buffer : List Nat) (index_format : IndexFormat) (count : Nat)
  | NonIndexed (vertex_count : Nat)
deriving DecidableEq, Repr

/-- The part of bevy's `GpuMesh` record read by the executor. -/
structure GpuMesh where
  vertex_buffer : List Nat
  buffer_info : GpuBufferInfo
deriving DecidableEq, Repr

inductive RenderCommandResult
  | Success
  | Failure
deriving DecidableEq, Repr

/-- Commands recorded on the `TrackedRenderPass`; ranges are (start, end). -/
inductive PassCommand
  | set_vertex_buffer (slot : Nat) (buffer : List Nat)
  | set_index_buffer (buffer : List Nat) (offset : Nat) (format : IndexFormat)
  | draw_indexed (indices : Nat × Nat) (base_vertex : Int) (instances : Nat × Nat)
  | draw (vertices : Nat × Nat) (instances : Nat × Nat)
deriving DecidableEq, Repr

/-- The instance range a command passes to the GPU, if it is a draw. -/
def PassCommand.instance_range : PassCommand → Option (Nat × Nat)
  | .draw_indexed _ _ instances => some instances
  | .draw _ instances => some instances
  | _ => none

/-- `DrawMeshInstanced::render` (lib.rs lines 117-146): look the mesh handle up
in `RenderAssets<Mesh>`; on a miss return `Failure` having recorded nothing;
otherwise bind the mesh vertex buffer at slot 0 and the instance buffer at
slot 1, then either bind the index buffer and draw `0..count` indexed, or draw
`0..vertex_count` non-indexed, each with instances `0..instance_buffer.length`,
and return `Success`. -/
def DrawMeshInstanced.render (meshes : Nat → Option GpuMesh) (mesh_handle : Nat)
    (instance_buffer : InstanceBuffer) : RenderCommandResult × List PassCommand :=
  match meshes mesh_handle with
  | none => (RenderCommandResult.Failure, [])
  | some gpu_mesh =>
    let setup := [PassCommand.set_vertex_buffer 0 gpu_mesh.vertex_buffer,
                  PassCommand.set_vertex_buffer 1 instance_buffer.buffer]
    match gpu_mesh.buffer_info with
    | GpuBufferInfo.Indexed buffer index_format count =>
      (RenderCommandResult.Success,
        setup ++ [PassCommand.set_index_buffer buffer 0 index_format,
                  PassCommand.draw_indexed (0, count) 0 (0, instance_buffer.length)])
    | GpuBufferInfo.NonIndexed vertex_count =>
      (RenderCommandResult.Success,
        setup ++ [PassCommand.draw (0, vertex_count) (0, instance_buffer.length)])

/-- A render phase executes its queued items one after the other; each item's
command is recorded from that item's own mesh handle and instance buffer
alone. -/
def render_phase_items (meshes : Nat → Option GpuMesh)
    (items : List (Nat × InstanceBuffer)) :
    List (RenderCommandResult × List PassCommand) :=
  items.map fun (mesh_handle, instance_buffer) =>
    DrawMeshInstanced.render meshes mesh_handle instance_buffer

/-! ## The queue stage `queue_instance_material_meshes` (lib.rs lines 149-268)

Entities, asset handles, draw-function ids and pipeline ids are Nats.
External tables (`RenderMaterials<M>`, `RenderAssets<Mesh>`) and the outcome
of `SpecializedMeshPipelines::specialize` (which bevy memoizes per key and
which may fail with a `SpecializedMeshPipelineError`) enter as functions in
the context record. -/

/-- `MaterialProperties` of the prepared material (bevy 0.9). -/
structure MaterialProperties where
  alpha_mode : AlphaMode
  depth_bias : ℚ
deriving DecidableEq, Repr

/-- The prepared material record: bind-group key fragment plus properties. -/
structure PreparedMaterial where
  key : Nat
  properties : MaterialProperties
deriving DecidableEq, Repr

/-- The part of the prepared `GpuMesh` read while queueing. -/
structure QueueMesh where
  primitive_topology : PrimitiveTopology
  layout : Nat
deriving DecidableEq, Repr

/-- `MeshUniform`; only `transform` is read (for the rangefinder). -/
structure MeshUniform where
  transform : Mat4
deriving DecidableEq, Repr

/-- `MaterialPipelineKey { mesh_key, bind_group_data }`. -/
structure MaterialPipelineKey where
  mesh_key : Nat
  bind_group_data : Nat
deriving DecidableEq, Repr

/-- A queued phase item (`Opaque3d` / `AlphaMask3d` / `Transparent3d` share
this shape). -/
structure DrawItem where
  entity : Nat
  draw_function : Nat
  pipeline : Nat
  distance : ℚ
deriving DecidableEq, Repr

/-- The three per-view phase queues (the source's `opaque_phase`,
`alpha_mask_phase`, `transparent_phase`). -/
structure Phases where
  opaque_phase : List DrawItem
  alpha_mask_phase : List DrawItem
  transparent_phase : List DrawItem
deriving DecidableEq, Repr

/-- Read-only context of the queue system. -/
structure QueueCtx where
  /-- `instance_material_meshes.get(entity)`: the join on
  (`Handle<M>`, `Handle<Mesh>`, `MeshUniform`) `With<InstanceDataVec<D>>`. -/
  instance_material_meshes : Nat → Option (Nat × Nat × MeshUniform)
  /-- `render_materials.get(handle)`. -/
  render_materials : Nat → Option PreparedMaterial
  /-- `render_meshes.get(handle)`. -/
  render_meshes : Nat → Option QueueMesh
  /-- `pipelines.specialize(&pipeline_cache, &instance_material_pipeline, key,
  &mesh.layout)`: `none` embeds `Err(SpecializedMeshPipelineError)`. -/
  specialize : MaterialPipelineKey → Nat → Option Nat
  draw_opaque_pbr : Nat
  draw_alpha_mask_pbr : Nat
  draw_transparent_pbr : Nat

/-- Outcome of one iteration of the visible-entity loop: `ret` embeds the
source's `return` (which exits the whole system), `cont` the fall-through /
`continue` to the next visible entity. -/
inductive EntityStep
  | ret
  | cont (phases : Phases)
deriving DecidableEq, Repr

/-- One iteration of `for visible_entity in &visible_entities.entities`
(lib.rs lines 197-266).  A failing query join, a missing prepared material or
a missing prepared mesh each `return` from the whole system; a specialization
error logs and `continue`s; otherwise the item is pushed onto the single
phase queue selected by the material's alpha mode. -/
def queue_entity (ctx : QueueCtx) (vkey : Nat) (rangefinder : ViewRangefinder3d)
    (visible_entity : Nat) (phases : Phases) : EntityStep :=
  match ctx.instance_material_meshes visible_entity with
  | none => EntityStep.ret
  | some (material_handle, mesh_handle, mesh_uniform) =>
    match ctx.render_materials material_handle with
    | none => EntityStep.ret
    | some material =>
      match ctx.render_meshes mesh_handle with
      | none => EntityStep.ret
      | some mesh =>
        let mk := mesh_key mesh.primitive_topology vkey
          material.properties.alpha_mode
        match ctx.specialize ⟨mk, material.key⟩ mesh.layout with
        | none => EntityStep.cont phases
        | some pipeline_id =>
          let distance := rangefinder.distance mesh_uniform.transform +
            material.properties.depth_bias
          match material.properties.alpha_mode with
          | AlphaMode.Opaque =>
            EntityStep.cont { phases with opaque_phase := phases.opaque_phase ++
              [⟨visible_entity, ctx.draw_opaque_pbr, pipeline_id, distance⟩] }
          | AlphaMode.Mask _ =>
            EntityStep.cont { phases with alpha_mask_phase := phases.alpha_mask_phase ++
              [⟨visible_entity, ctx.draw_alpha_mask_pbr, pipeline_id, distance⟩] }
          | AlphaMode.Blend =>
            EntityStep.cont { phases with transparent_phase := phases.transparent_phase ++
              [⟨visible_entity, ctx.draw_transparent_pbr, pipeline_id, distance⟩] }

/-- The visible-entity loop of one view.  The Bool is true when the loop was
left by the source's `return`, abandoning the rest of the system. -/
def queue_loop (ctx : QueueCtx) (vkey : Nat) (rangefinder : ViewRangefinder3d)
    (entities : List Nat) (phases : Phases) : Phases × Bool :=
  match entities with
  | [] => (phases, false)
  | e :: rest =>
    match queue_entity ctx vkey rangefinder e phases with
    | EntityStep.ret => (phases, true)
    | EntityStep.cont phases' => queue_loop ctx vkey rangefinder rest phases'

/-- One view of the `views` query. -/
structure ViewInput where
  hdr : Bool
  rangefinder : ViewRangefinder3d
  tonemapping : Option Tonemapping
  visible_entities : List Nat
  phases : Phases

/-- `queue_instance_material_meshes` over all views: per view compute the view
key (lib.rs lines 183-194) and run the visible-entity loop; a `return` inside
any view's loop exits the whole system, leaving the remaining views' phase
queues untouched. -/
def queue_instance_material_meshes (ctx : QueueCtx) (msaa_samples : Nat)
    (views : List ViewInput) : List Phases :=
  match views with
  | [] => []
  | view :: rest =>
    let vkey := view_key msaa_samples view.hdr view.tonemapping
    match queue_loop ctx vkey view.rangefinder view.visible_entities view.phases with
    | (phases, false) => phases :: queue_instance_material_meshes ctx msaa_samples rest
    | (phases, true) => phases :: rest.map ViewInput.phases

/-! ## Specialized-pipeline memoization (bevy `SpecializedMeshPipelines`)

`pipelines.specialize` first consults a per-(layout, key) table and only
specializes and inserts on a miss, so a key resolves to at most one pipeline
id.  The embedding keeps the table as an association list together with the
next fresh id. -/

structure SpecializedMeshPipelines where
  entries : List ((Nat × MaterialPipelineKey) × Nat)
  next_id : Nat

def lookup_pipeline (entries : List ((Nat × MaterialPipelineKey) × Nat))
    (k : Nat × MaterialPipelineKey) : Option Nat :=
  match entries with
  | [] => none
  | (k', id) :: rest => if k' = k then some id else lookup_pipeline rest k

/-- `SpecializedMeshPipelines::specialize` when the underlying descriptor
specialization succeeds: return the cached id for this (layout, key), or
queue a new pipeline and record its id. -/
def SpecializedMeshPipelines.specialize (cache : SpecializedMeshPipelines)
    (layout_id : Nat) (key : MaterialPipelineKey) :
    Nat × SpecializedMeshPipelines :=
  match lookup_pipeline cache.entries (layout_id, key) with
  | some id => (id, cache)
  | none =>
    (cache.next_id,
      { entries := ((layout_id, key), cache.next_id) :: cache.entries
        next_id := cache.next_id + 1 })

/-! ## `InstanceMaterialPipeline::specialize` (lib.rs lines 291-299) -/

/-- wgpu `VertexBufferLayout`; its contents are opaque to this code, so it is
embedded as an identifier. -/
abbrev VertexBufferLayout := Nat

/-- bevy `VertexState` of a `RenderPipelineDescriptor`. -/
structure VertexState where
  shader : Nat
  entry_point : Nat
  shader_defs : List Nat
  buffers : List VertexBufferLayout
deriving DecidableEq, Repr

/-- bevy `RenderPipelineDescriptor`; fields other than `vertex.buffers` are
opaque to this code. -/
structure RenderPipelineDescriptor where
  label : Option Nat
  layout : Option Nat
  vertex : VertexState
  primitive : Nat
  depth_stencil : Option Nat
  multisample : Nat
  fragment : Option Nat
deriving DecidableEq, Repr

abbrev SpecializedMeshPipelineError := Nat

/-- `InstanceMaterialPipeline::specialize` (lib.rs lines 291-299): run the
base material pipeline's specialization (`?` propagates its error), then push
`D::buffer_layout()` onto the descriptor's vertex buffer list. -/
def InstanceMaterialPipeline.specialize
    (material_pipeline :
      MaterialPipelineKey → Nat →
        Except SpecializedMeshPipelineError RenderPipelineDescriptor)
    (instance_buffer_layout : VertexBufferLayout)
    (key : MaterialPipelineKey) (layout : Nat) :
    Except SpecializedMeshPipelineError RenderPipelineDescriptor :=
  match material_pipeline key layout with
  | Except.error e => Except.error e
  | Except.ok descriptor =>
    Except.ok { descriptor with
      vertex := { descriptor.vertex with
        buffers := descriptor.vertex.buffers ++ [instance_buffer_layout] } }

/-! ## Concrete fixtures used by witness theorems -/

/-- An indexed cube-like GPU mesh with 36 indices. -/
def sample_gpu_mesh : GpuMesh :=
  { vertex_buffer := [9, 9, 9]
    buffer_info := GpuBufferInfo.Indexed [7, 7] IndexFormat.Uint32 36 }

/-- A mesh table: handle 0 is the indexed mesh above, handle 1 a non-indexed
mesh of 3 vertices, handle 5 absent. -/
def sample_meshes : Nat → Option GpuMesh
  | 0 => some sample_gpu_mesh
  | 1 => some { vertex_buffer := [4, 4], buffer_info := GpuBufferInfo.NonIndexed 3 }
  | _ => none

def sample_uniform : MeshUniform :=
  { transform := { x_axis := ⟨1, 0, 0, 0⟩, y_axis := ⟨0, 1, 0, 0⟩,
                   z_axis := ⟨0, 0, 1, 0⟩, w_axis := ⟨0, 0, 0, 1⟩ } }

def sample_rangefinder : ViewRangefinder3d := { inverse_view_row_2 := ⟨0, 0, 1, 2⟩ }

def sample_material : PreparedMaterial :=
  { key := 0, properties := { alpha_mode := AlphaMode.Opaque, depth_bias := 0 } }

/-- Queue context for the abort scenario: entity 1's material (handle 10) is
not yet GPU-resident, entity 2 (material 11, mesh 21) is fully resident. -/
def abort_ctx : QueueCtx :=
  { instance_material_meshes := fun e =>
      if e = 1 then some (10, 20, sample_uniform)
      else if e = 2 then some (11, 21, sample_uniform)
      else none
    render_materials := fun h => if h = 11 then some sample_material else none
    render_meshes := fun h =>
      if h = 21 then some { primitive_topology := PrimitiveTopology.TriangleList, layout := 0 }
      else none
    specialize := fun _ _ => some 7
    draw_opaque_pbr := 0
    draw_alpha_mask_pbr := 1
    draw_transparent_pbr := 2 }

/-- The single view of the abort scenario: LDR, no tonemapping, entities 1
then 2 visible, all three phase queues empty. -/
def abort_view : ViewInput :=
  { hdr := false
    rangefinder := sample_rangefinder
    tonemapping := none
    visible_entities := [1, 2]
    phases := ⟨[], [], []⟩ }

/-- Queue context where every lookup succeeds (used by witnesses). -/
def ok_ctx : QueueCtx :=
  { instance_material_meshes := fun e =>
      if e = 2 then some (11, 21, sample_uniform) else none
    render_materials := fun h => if h = 11 then some sample_material else none
    render_meshes := fun h =>
      if h = 21 then some { primitive_topology := PrimitiveTopology.TriangleList, layout := 0 }
      else none
    specialize := fun _ _ => some 7
    draw_opaque_pbr := 0
    draw_alpha_mask_pbr := 1
    draw_transparent_pbr := 2 }

/-- A base material pipeline specialization that succeeds with a fixed
descriptor (for witnesses). -/
def sample_descriptor : RenderPipelineDescriptor :=
  { label := some 3
    layout := some 4
    vertex := { shader := 1, entry_point := 2, shader_defs := [5],
                buffers := [(30 : Nat), (31 : Nat)] }
    primitive := 6
    depth_stencil := some 7
    multisample := 8
    fragment := some 9 }

def sample_material_pipeline :
    MaterialPipelineKey → Nat →
      Except SpecializedMeshPipelineError RenderPipelineDescriptor :=
  fun _ _ => Except.ok sample_descriptor

def failing_material_pipeline :
    MaterialPipelineKey → Nat →
      Except SpecializedMeshPipelineError RenderPipelineDescriptor :=
  fun _ _ => Except.error (3 : Nat)

/-! ## Helper lemmas -/

theorem cast_slice_length (records : List (List Nat)) (rec_size : Nat)
    (h : ∀ r ∈ records, r.length = rec_size) :
    (cast_slice records).length = records.length * rec_size := by
  induction records with
  | nil => simp [cast_slice]
  | cons r rest ih =>
    have hr : r.length = rec_size := h r (List.mem_cons_self r rest)
    have hrest : (cast_slice rest).length = rest.length * rec_size :=
      ih fun s hs => h s (List.mem_cons_of_mem r hs)
    simp only [cast_slice, List.flatten_cons, List.length_append, List.length_cons]
    simp only [cast_slice] at hrest
    rw [hr, hrest]
    ring

theorem from_msaa_samples_testBit (m i : Nat) (h : i < 29) :
    (from_msaa_samples m).testBit i = false := by
  have hn : ¬(32 - 3 ≤ i) := by omega
  simp [from_msaa_samples, MSAA_SHIFT_BITS, Nat.testBit_shiftLeft, hn]

theorem from_primitive_topology_testBit (t : PrimitiveTopology) (i : Nat)
    (h : i < 26) :
    (from_primitive_topology t).testBit i = false := by
  have hn : ¬(32 - 3 - 3 ≤ i) := by omega
  simp [from_primitive_topology, PRIMITIVE_TOPOLOGY_SHIFT_BITS, MSAA_SHIFT_BITS,
    Nat.testBit_shiftLeft, hn]

/-! ## Claims -/

/-- C2: for every non-empty instance snapshot, the prepared `InstanceBuffer`'s
GPU buffer holds exactly the concatenated bytes of the snapshot's records, its
byte length is `len(S) * sizeof(InstanceRecord)`, and its stored `length`
field is `len(S)`. -/
theorem prepare_nonempty_snapshot (instance_data : List (List Nat)) (rec_size : Nat)
    (hne : instance_data ≠ [])
    (hsz : ∀ r ∈ instance_data, r.length = rec_size) :
    (prepare_instance_buffer instance_data).buffer = cast_slice instance_data ∧
    (prepare_instance_buffer instance_data).buffer.length =
      instance_data.length * rec_size ∧
    (prepare_instance_buffer instance_data).length = instance_data.length := by
  refine ⟨rfl, ?_, rfl⟩
  exact cast_slice_length instance_data rec_size hsz

/-- Witness for C2 at a concrete three-record snapshot of two-byte records. -/
theorem prepare_nonempty_snapshot_witness :
    ([[1, 2], [3, 4], [5, 6]] : List (List Nat)) ≠ [] ∧
    (prepare_instance_buffer [[1, 2], [3, 4], [5, 6]]).buffer =
      cast_slice [[1, 2], [3, 4], [5, 6]] ∧
    (prepare_instance_buffer [[1, 2], [3, 4], [5, 6]]).buffer.length = 3 * 2 ∧
    (prepare_instance_buffer [[1, 2], [3, 4], [5, 6]]).length = 3 :=
  ⟨by decide,
    prepare_nonempty_snapshot [[1, 2], [3, 4], [5, 6]] 2 (by decide) (by decide)⟩

/-- C3: an empty snapshot prepares to an `InstanceBuffer` of record count 0,
and whatever draw the executor then records for that entity has the empty
instance range `(0, 0)` — the instance count passed to the GPU is never
nonzero. -/
theorem empty_snapshot_zero_instances (meshes : Nat → Option GpuMesh)
    (mesh_handle : Nat) :
    (prepare_instance_buffer []).length = 0 ∧
    ∀ cmd ∈ (DrawMeshInstanced.render meshes mesh_handle
        (prepare_instance_buffer [])).2,
      ∀ rng, cmd.instance_range = some rng → rng = (0, 0) := by
  refine ⟨rfl, ?_⟩
  intro cmd hmem rng hrng
  unfold DrawMeshInstanced.render at hmem
  cases hm : meshes mesh_handle with
  | none => simp [hm] at hmem
  | some gpu_mesh =>
    cases hbi : gpu_mesh.buffer_info with
    | Indexed buffer index_format count =>
      simp [hm, hbi] at hmem
      rcases hmem with h | h | h | h <;> subst h <;>
        simp [PassCommand.instance_range, prepare_instance_buffer, cast_slice] at hrng <;>
        simp [hrng]
    | NonIndexed vertex_count =>
      simp [hm, hbi] at hmem
      rcases hmem with h | h | h <;> subst h <;>
        simp [PassCommand.instance_range, prepare_instance_buffer, cast_slice] at hrng <;>
        simp [hrng]

/-- Witness for C3: the indexed draw the executor records for mesh handle 0
with the empty snapshot's buffer carries the empty instance range. -/
theorem empty_snapshot_zero_instances_witness :
    (prepare_instance_buffer []).length = 0 ∧
    ((0 : Nat), (prepare_instance_buffer []).length) = ((0 : Nat), (0 : Nat)) := by
  refine ⟨(empty_snapshot_zero_instances sample_meshes 0).1, ?_⟩
  exact (empty_snapshot_zero_instances sample_meshes 0).2
    (PassCommand.draw_indexed (0, 36) 0 (0, (prepare_instance_buffer []).length))
    (by decide) (0, (prepare_instance_buffer []).length) (by decide)

/-- C8: when the mesh GPU record is found, the executor binds the mesh vertex
buffer at slot 0 and the
instance buffer at slot 1, then records exactly one draw — indexed over
`0..count` after binding the index buffer when the mesh is indexed, otherwise
non-indexed over `0..vertex_count` — with instance range
`0..instance_buffer.length`, and returns `Success`. -/
theorem render_found_mesh (meshes : Nat → Option GpuMesh) (mesh_handle : Nat)
    (instance_buffer : InstanceBuffer) (gpu_mesh : GpuMesh)
    (h : meshes mesh_handle = some gpu_mesh) :
    (DrawMeshInstanced.render meshes mesh_handle instance_buffer).1 =
      RenderCommandResult.Success ∧
    (DrawMeshInstanced.render meshes mesh_handle instance_buffer).2 =
      match gpu_mesh.buffer_info with
      | GpuBufferInfo.Indexed buffer index_format count =>
        [PassCommand.set_vertex_buffer 0 gpu_mesh.vertex_buffer,
         PassCommand.set_vertex_buffer 1 instance_buffer.buffer,
         PassCommand.set_index_buffer buffer 0 index_format,
         PassCommand.draw_indexed (0, count) 0 (0, instance_buffer.length)]
      | GpuBufferInfo.NonIndexed vertex_count =>
        [PassCommand.set_vertex_buffer 0 gpu_mesh.vertex_buffer,
         PassCommand.set_vertex_buffer 1 instance_buffer.buffer,
         PassCommand.draw (0, vertex_count) (0, instance_buffer.length)] := by
  cases hbi : gpu_mesh.buffer_info with
  | Indexed buffer index_format count =>
    constructor <;> simp [DrawMeshInstanced.render, h, hbi]
  | NonIndexed vertex_count =>
    constructor <;> simp [DrawMeshInstanced.render, h, hbi]

/-- Witness for C8: the indexed mesh at handle 0 with a five-record buffer
yields the four expected commands and `Success`. -/
theorem render_found_mesh_witness :
    sample_meshes 0 = some sample_gpu_mesh ∧
    (DrawMeshInstanced.render sample_meshes 0 ⟨[1, 2, 3, 4, 5], 5⟩).1 =
      RenderCommandResult.Success ∧
    (DrawMeshInstanced.render sample_meshes 0 ⟨[1, 2, 3, 4, 5], 5⟩).2 =
      [PassCommand.set_vertex_buffer 0 [9, 9, 9],
       PassCommand.set_vertex_buffer 1 [1, 2, 3, 4, 5],
       PassCommand.set_index_buffer [7, 7] 0 IndexFormat.Uint32,
       PassCommand.draw_indexed (0, 36) 0 (0, 5)] := by
  refine ⟨by decide, ?_⟩
  exact render_found_mesh sample_meshes 0 ⟨[1, 2, 3, 4, 5], 5⟩ sample_gpu_mesh (by decide)

/-- C9: when the mesh GPU record is missing, the executor returns `Failure`
for that item having recorded no command at all, and the commands recorded for
every other item of the phase are exactly what they would have been anyway. -/
theorem render_missing_mesh (meshes : Nat → Option GpuMesh) (mesh_handle : Nat)
    (instance_buffer : InstanceBuffer)
    (h : meshes mesh_handle = none) :
    DrawMeshInstanced.render meshes mesh_handle instance_buffer =
      (RenderCommandResult.Failure, []) ∧
    ∀ pre post : List (Nat × InstanceBuffer),
      render_phase_items meshes (pre ++ (mesh_handle, instance_buffer) :: post) =
        render_phase_items meshes pre ++
          (RenderCommandResult.Failure, []) :: render_phase_items meshes post := by
  have hfail : DrawMeshInstanced.render meshes mesh_handle instance_buffer =
      (RenderCommandResult.Failure, []) := by
    simp [DrawMeshInstanced.render, h]
  refine ⟨hfail, ?_⟩
  intro pre post
  simp [render_phase_items, hfail]

/-- Witness for C9 at mesh handle 5 (absent from the table), between two
well-formed items. -/
theorem render_missing_mesh_witness :
    DrawMeshInstanced.render sample_meshes 5 ⟨[1], 1⟩ =
      (RenderCommandResult.Failure, []) ∧
    render_phase_items sample_meshes [(0, ⟨[2], 1⟩), (5, ⟨[1], 1⟩), (1, ⟨[3], 1⟩)] =
      render_phase_items sample_meshes [(0, ⟨[2], 1⟩)] ++
        (RenderCommandResult.Failure, []) :: render_phase_items sample_meshes [(1, ⟨[3], 1⟩)] := by
  refine ⟨(render_missing_mesh sample_meshes 5 ⟨[1], 1⟩ (by decide)).1, ?_⟩
  exact (render_missing_mesh sample_meshes 5 ⟨[1], 1⟩ (by decide)).2
    [(0, ⟨[2], 1⟩)] [(1, ⟨[3], 1⟩)]

/-- C10: when the base material pipeline specialization succeeds, the
instanced pipeline returns the base descriptor with exactly the instance
vertex-buffer layout appended after the mesh's own vertex buffers and every
other field unchanged; when it fails, the error is returned unchanged. -/
theorem instance_pipeline_specialize (material_pipeline :
      MaterialPipelineKey → Nat →
        Except SpecializedMeshPipelineError RenderPipelineDescriptor)
    (instance_buffer_layout : VertexBufferLayout)
    (key : MaterialPipelineKey) (layout : Nat) :
    (∀ descriptor, material_pipeline key layout = Except.ok descriptor →
      ∃ descriptor',
        InstanceMaterialPipeline.specialize material_pipeline
          instance_buffer_layout key layout = Except.ok descriptor' ∧
        descriptor'.vertex.buffers =
          descriptor.vertex.buffers ++ [instance_buffer_layout] ∧
        descriptor'.label = descriptor.label ∧
        descriptor'.layout = descriptor.layout ∧
        descriptor'.vertex.shader = descriptor.vertex.shader ∧
        descriptor'.vertex.entry_point = descriptor.vertex.entry_point ∧
        descriptor'.vertex.shader_defs = descriptor.vertex.shader_defs ∧
        descriptor'.primitive = descriptor.primitive ∧
        descriptor'.depth_stencil = descriptor.depth_stencil ∧
        descriptor'.multisample = descriptor.multisample ∧
        descriptor'.fragment = descriptor.fragment) ∧
    (∀ e, material_pipeline key layout = Except.error e →
      InstanceMaterialPipeline.specialize material_pipeline
        instance_buffer_layout key layout = Except.error e) := by
  constructor
  · intro descriptor hok
    refine ⟨{ descriptor with vertex := { descriptor.vertex with
      buffers := descriptor.vertex.buffers ++ [instance_buffer_layout] } }, ?_,
      rfl, rfl, rfl, rfl, rfl, rfl, rfl, rfl, rfl, rfl⟩
    simp [InstanceMaterialPipeline.specialize, hok]
  · intro e herr
    simp [InstanceMaterialPipeline.specialize, herr]

/-- Witness for C10 at the sample base pipeline and instance layout 42. -/
theorem instance_pipeline_specialize_witness :
    (∃ descriptor',
      InstanceMaterialPipeline.specialize sample_material_pipeline
        (42 : VertexBufferLayout) ⟨0, 0⟩ 0 = Except.ok descriptor' ∧
      descriptor'.vertex.buffers =
        sample_descriptor.vertex.buffers ++ [(42 : VertexBufferLayout)] ∧
      descriptor'.label = sample_descriptor.label ∧
      descriptor'.layout = sample_descriptor.layout ∧
      descriptor'.vertex.shader = sample_descriptor.vertex.shader ∧
      descriptor'.vertex.entry_point = sample_descriptor.vertex.entry_point ∧
      descriptor'.vertex.shader_defs = sample_descriptor.vertex.shader_defs ∧
      descriptor'.primitive = sample_descriptor.primitive ∧
      descriptor'.depth_stencil = sample_descriptor.depth_stencil ∧
      descriptor'.multisample = sample_descriptor.multisample ∧
      descriptor'.fragment = sample_descriptor.fragment) ∧
    InstanceMaterialPipeline.specialize failing_material_pipeline
      (42 : VertexBufferLayout) ⟨0, 0⟩ 0 = Except.error (3 : Nat) := by
  constructor
  · exact (instance_pipeline_specialize sample_material_pipeline (42 : VertexBufferLayout)
      ⟨0, 0⟩ 0).1 sample_descriptor rfl
  · exact (instance_pipeline_specialize failing_material_pipeline (42 : VertexBufferLayout)
      ⟨0, 0⟩ 0).2 (3 : Nat) rfl

/-- Evaluation of one visible-entity iteration when every lookup succeeds:
shared helper behind the queueing claims. -/
theorem queue_entity_resolved (ctx : QueueCtx) (vkey : Nat)
    (rangefinder : ViewRangefinder3d) (visible_entity : Nat) (phases : Phases)
    (material_handle mesh_handle : Nat) (mesh_uniform : MeshUniform)
    (material : PreparedMaterial) (mesh : QueueMesh) (pipeline_id : Nat)
    (hq : ctx.instance_material_meshes visible_entity =
      some (material_handle, mesh_handle, mesh_uniform))
    (hmat : ctx.render_materials material_handle = some material)
    (hmesh : ctx.render_meshes mesh_handle = some mesh)
    (hspec : ctx.specialize
      ⟨mesh_key mesh.primitive_topology vkey material.properties.alpha_mode,
        material.key⟩ mesh.layout = some pipeline_id) :
    queue_entity ctx vkey rangefinder visible_entity phases =
      EntityStep.cont (
        match material.properties.alpha_mode with
        | AlphaMode.Opaque =>
          { phases with opaque_phase := phases.opaque_phase ++
            [⟨visible_entity, ctx.draw_opaque_pbr, pipeline_id,
              rangefinder.distance mesh_uniform.transform +
                material.properties.depth_bias⟩] }
        | AlphaMode.Mask _ =>
          { phases with alpha_mask_phase := phases.alpha_mask_phase ++
            [⟨visible_entity, ctx.draw_alpha_mask_pbr, pipeline_id,
              rangefinder.distance mesh_uniform.transform +
                material.properties.depth_bias⟩] }
        | AlphaMode.Blend =>
          { phases with transparent_phase := phases.transparent_phase ++
            [⟨visible_entity, ctx.draw_transparent_pbr, pipeline_id,
              rangefinder.distance mesh_uniform.transform +
                material.properties.depth_bias⟩] }) := by
  cases ham : material.properties.alpha_mode with
  | Opaque => simp [queue_entity, hq, hmat, hmesh, ham ▸ hspec, ham]
  | Mask threshold => simp [queue_entity, hq, hmat, hmesh, ham ▸ hspec, ham]
  | Blend => simp [queue_entity, hq, hmat, hmesh, ham ▸ hspec, ham]

/-- C5: a fully resolved draw is dispatched to exactly the phase queue chosen
by the material's alpha mode — Opaque to the opaque queue, Mask to the
alpha-mask queue, Blend to the transparent queue — and the other two queues of
the view are left untouched. -/
theorem queue_phase_routing (ctx : QueueCtx) (vkey : Nat)
    (rangefinder : ViewRangefinder3d) (visible_entity : Nat) (phases : Phases)
    (material_handle mesh_handle : Nat) (mesh_uniform : MeshUniform)
    (material : PreparedMaterial) (mesh : QueueMesh) (pipeline_id : Nat)
    (hq : ctx.instance_material_meshes visible_entity =
      some (material_handle, mesh_handle, mesh_uniform))
    (hmat : ctx.render_materials material_handle = some material)
    (hmesh : ctx.render_meshes mesh_handle = some mesh)
    (hspec : ctx.specialize
      ⟨mesh_key mesh.primitive_topology vkey material.properties.alpha_mode,
        material.key⟩ mesh.layout = some pipeline_id) :
    (material.properties.alpha_mode = AlphaMode.Opaque →
      queue_entity ctx vkey rangefinder visible_entity phases = EntityStep.cont
        { phases with opaque_phase := phases.opaque_phase ++
          [⟨visible_entity, ctx.draw_opaque_pbr, pipeline_id,
            rangefinder.distance mesh_uniform.transform +
              material.properties.depth_bias⟩] }) ∧
    (∀ threshold, material.properties.alpha_mode = AlphaMode.Mask threshold →
      queue_entity ctx vkey rangefinder visible_entity phases = EntityStep.cont
        { phases with alpha_mask_phase := phases.alpha_mask_phase ++
          [⟨visible_entity, ctx.draw_alpha_mask_pbr, pipeline_id,
            rangefinder.distance mesh_uniform.transform +
              material.properties.depth_bias⟩] }) ∧
    (material.properties.alpha_mode = AlphaMode.Blend →
      queue_entity ctx vkey rangefinder visible_entity phases = EntityStep.cont
        { phases with transparent_phase := phases.transparent_phase ++
          [⟨visible_entity, ctx.draw_transparent_pbr, pipeline_id,
            rangefinder.distance mesh_uniform.transform +
              material.properties.depth_bias⟩] }) := by
  have h := queue_entity_resolved ctx vkey rangefinder visible_entity phases
    material_handle mesh_handle mesh_uniform material mesh pipeline_id
    hq hmat hmesh hspec
  refine ⟨fun ham => ?_, fun threshold ham => ?_, fun ham => ?_⟩ <;>
    rw [ham] at h <;> exact h

/-- Witness for C5: in `ok_ctx` entity 2's Opaque material lands in the opaque
queue alone. -/
theorem queue_phase_routing_witness :
    queue_entity ok_ctx
      (view_key 4 false none) sample_rangefinder 2 ⟨[], [], []⟩ =
      EntityStep.cont
        ⟨[⟨2, 0, 7, sample_rangefinder.distance sample_uniform.transform +
          sample_material.properties.depth_bias⟩], [], []⟩ := by
  exact (queue_phase_routing ok_ctx (view_key 4 false none) sample_rangefinder 2
    ⟨[], [], []⟩ 11 21 sample_uniform sample_material
    ⟨PrimitiveTopology.TriangleList, 0⟩ 7 rfl rfl rfl rfl).1 rfl

/-- C6: the sort distance stored in a queued item is exactly the rangefinder
distance to the entity's world transform plus the material's depth bias;
with zero bias the order of two rangefinder distances is preserved, and a
bias `b` shifts the sort distance by exactly `b` whatever the distance. -/
theorem queue_sort_distance (ctx : QueueCtx) (vkey : Nat)
    (rangefinder : ViewRangefinder3d) (visible_entity : Nat) (phases : Phases)
    (material_handle mesh_handle : Nat) (mesh_uniform : MeshUniform)
    (material : PreparedMaterial) (mesh : QueueMesh) (pipeline_id : Nat)
    (hq : ctx.instance_material_meshes visible_entity =
      some (material_handle, mesh_handle, mesh_uniform))
    (hmat : ctx.render_materials material_handle = some material)
    (hmesh : ctx.render_meshes mesh_handle = some mesh)
    (hspec : ctx.specialize
      ⟨mesh_key mesh.primitive_topology vkey material.properties.alpha_mode,
        material.key⟩ mesh.layout = some pipeline_id) :
    (∃ phases',
      queue_entity ctx vkey rangefinder visible_entity phases =
        EntityStep.cont phases' ∧
      ∀ item : DrawItem,
        item ∈ phases'.opaque_phase ∨ item ∈ phases'.alpha_mask_phase ∨
          item ∈ phases'.transparent_phase →
        (item ∈ phases.opaque_phase ∨ item ∈ phases.alpha_mask_phase ∨
          item ∈ phases.transparent_phase) ∨
        item.distance = sort_distance rangefinder mesh_uniform.transform
          material.properties.depth_bias) ∧
    (∀ (rf : ViewRangefinder3d) (t1 t2 : Mat4),
      rf.distance t1 < rf.distance t2 →
      sort_distance rf t1 0 < sort_distance rf t2 0) ∧
    (∀ (rf : ViewRangefinder3d) (t : Mat4) (b : ℚ),
      sort_distance rf t b = sort_distance rf t 0 + b) := by
  refine ⟨?_, ?_, ?_⟩
  · have h := queue_entity_resolved ctx vkey rangefinder visible_entity phases
      material_handle mesh_handle mesh_uniform material mesh pipeline_id
      hq hmat hmesh hspec
    cases ham : material.properties.alpha_mode with
    | Opaque =>
      rw [ham] at h
      refine ⟨_, h, ?_⟩
      intro item hmem
      rcases hmem with hm | hm | hm
      · rcases List.mem_append.mp hm with hold | hnew
        · exact Or.inl (Or.inl hold)
        · right
          have : item = ⟨visible_entity, ctx.draw_opaque_pbr, pipeline_id,
              rangefinder.distance mesh_uniform.transform +
                material.properties.depth_bias⟩ := by
            simpa using hnew
          rw [this]
          rfl
      · exact Or.inl (Or.inr (Or.inl hm))
      · exact Or.inl (Or.inr (Or.inr hm))
    | Mask threshold =>
      rw [ham] at h
      refine ⟨_, h, ?_⟩
      intro item hmem
      rcases hmem with hm | hm | hm
      · exact Or.inl (Or.inl hm)
      · rcases List.mem_append.mp hm with hold | hnew
        · exact Or.inl (Or.inr (Or.inl hold))
        · right
          have : item = ⟨visible_entity, ctx.draw_alpha_mask_pbr, pipeline_id,
              rangefinder.distance mesh_uniform.transform +
                material.properties.depth_bias⟩ := by
            simpa using hnew
          rw [this]
          rfl
      · exact Or.inl (Or.inr (Or.inr hm))
    | Blend =>
      rw [ham] at h
      refine ⟨_, h, ?_⟩
      intro item hmem
      rcases hmem with hm | hm | hm
      · exact Or.inl (Or.inl hm)
      · exact Or.inl (Or.inr (Or.inl hm))
      · rcases List.mem_append.mp hm with hold | hnew
        · exact Or.inl (Or.inr (Or.inr hold))
        · right
          have : item = ⟨visible_entity, ctx.draw_transparent_pbr, pipeline_id,
              rangefinder.distance mesh_uniform.transform +
                material.properties.depth_bias⟩ := by
            simpa using hnew
          rw [this]
          rfl
  · intro rf t1 t2 hlt
    simpa [sort_distance] using hlt
  · intro rf t b
    simp [sort_distance]

/-- Witness for C6: entity 2 in `ok_ctx`, plus the concrete monotonicity and
bias-shift instances at rangefinder row (0,0,0,1). -/
theorem queue_sort_distance_witness :
    (∃ phases',
      queue_entity ok_ctx (view_key 4 false none) sample_rangefinder 2
        ⟨[], [], []⟩ = EntityStep.cont phases' ∧
      ∀ item : DrawItem,
        item ∈ phases'.opaque_phase ∨ item ∈ phases'.alpha_mask_phase ∨
          item ∈ phases'.transparent_phase →
        (item ∈ (⟨[], [], []⟩ : Phases).opaque_phase ∨
          item ∈ (⟨[], [], []⟩ : Phases).alpha_mask_phase ∨
          item ∈ (⟨[], [], []⟩ : Phases).transparent_phase) ∨
        item.distance = sort_distance sample_rangefinder sample_uniform.transform
          sample_material.properties.depth_bias) ∧
    sort_distance sample_rangefinder sample_uniform.transform 0 <
      sort_distance sample_rangefinder
        { sample_uniform.transform with w_axis := ⟨0, 0, 0, 5⟩ } 0 ∧
    sort_distance sample_rangefinder sample_uniform.transform 3 =
      sort_distance sample_rangefinder sample_uniform.transform 0 + 3 := by
  have h := queue_sort_distance ok_ctx (view_key 4 false none) sample_rangefinder 2
    ⟨[], [], []⟩ 11 21 sample_uniform sample_material
    ⟨PrimitiveTopology.TriangleList, 0⟩ 7 rfl rfl rfl rfl
  refine ⟨h.1, ?_, h.2.2 sample_rangefinder sample_uniform.transform 3⟩
  refine h.2.1 sample_rangefinder sample_uniform.transform
    { sample_uniform.transform with w_axis := ⟨0, 0, 0, 5⟩ } ?_
  show sample_rangefinder.distance sample_uniform.transform <
    sample_rangefinder.distance { sample_uniform.transform with w_axis := ⟨0, 0, 0, 5⟩ }
  norm_num [ViewRangefinder3d.distance, Vec4.dot, sample_rangefinder, sample_uniform]

/-- C7: the view key always carries the multisample fragment; its HDR bit is
set exactly when the view is HDR; TONEMAP_IN_SHADER is set iff tonemapping is
enabled and the view is not HDR; DEBAND_DITHER is set iff TONEMAP_IN_SHADER is
set and deband dithering is requested. -/
theorem view_key_fragments (m : Nat) (hdr : Bool) (tm : Option Tonemapping) :
    (∀ i, (from_msaa_samples m).testBit i = true →
      (view_key m hdr tm).testBit i = true) ∧
    ((view_key m hdr tm).testBit 1 = hdr) ∧
    ((view_key m hdr tm).testBit 2 = true ↔
      (∃ d, tm = some (Tonemapping.Enabled d)) ∧ hdr = false) ∧
    ((view_key m hdr tm).testBit 3 = true ↔
      (view_key m hdr tm).testBit 2 = true ∧ tm = some (Tonemapping.Enabled true)) := by
  have hm1 := from_msaa_samples_testBit m 1 (by omega)
  have hm2 := from_msaa_samples_testBit m 2 (by omega)
  have hm3 := from_msaa_samples_testBit m 3 (by omega)
  rcases tm with _ | tmv
  · cases hdr <;>
      refine ⟨fun i hi => by simp [view_key, from_hdr, Nat.testBit_lor, hi], ?_, ?_, ?_⟩ <;>
        simp [view_key, from_hdr, Nat.testBit_lor, hm1, hm2, hm3, HDR,
          TONEMAP_IN_SHADER, DEBAND_DITHER] <;> decide
  · cases tmv with
    | Disabled =>
      cases hdr <;>
        refine ⟨fun i hi => by simp [view_key, from_hdr, Nat.testBit_lor, hi], ?_, ?_, ?_⟩ <;>
          simp [view_key, from_hdr, Nat.testBit_lor, hm1, hm2, hm3, HDR,
            TONEMAP_IN_SHADER, DEBAND_DITHER] <;> decide
    | Enabled d =>
      cases d <;> cases hdr <;>
        refine ⟨fun i hi => by simp [view_key, from_hdr, Nat.testBit_lor, hi], ?_, ?_, ?_⟩ <;>
          simp [view_key, from_hdr, Nat.testBit_lor, hm1, hm2, hm3, HDR,
            TONEMAP_IN_SHADER, DEBAND_DITHER] <;> decide

/-- Witness for C7: concrete flag values for an LDR view with dithered
tonemapping at 4x msaa, and an HDR view with the same settings. -/
theorem view_key_fragments_witness :
    (view_key 4 false (some (Tonemapping.Enabled true))).testBit 2 = true ∧
    (view_key 4 false (some (Tonemapping.Enabled true))).testBit 3 = true ∧
    (view_key 4 true (some (Tonemapping.Enabled true))).testBit 1 = true := by
  refine ⟨?_, ?_, ?_⟩
  · exact (view_key_fragments 4 false (some (Tonemapping.Enabled true))).2.2.1.mpr
      ⟨⟨true, rfl⟩, rfl⟩
  · refine (view_key_fragments 4 false (some (Tonemapping.Enabled true))).2.2.2.mpr
      ⟨?_, rfl⟩
    exact (view_key_fragments 4 false (some (Tonemapping.Enabled true))).2.2.1.mpr
      ⟨⟨true, rfl⟩, rfl⟩
  · exact (view_key_fragments 4 true (some (Tonemapping.Enabled true))).2.1

/-- Bit 0 (TRANSPARENT_MAIN_PASS) of a view key is never set. -/
theorem view_key_testBit_zero (m : Nat) (hdr : Bool) (tm : Option Tonemapping) :
    (view_key m hdr tm).testBit 0 = false := by
  have hm0 := from_msaa_samples_testBit m 0 (by omega)
  simp only [Nat.testBit_zero, decide_eq_false_iff_not] at hm0
  rcases tm with _ | tmv
  · cases hdr <;>
      simp [view_key, from_hdr, Nat.testBit_lor, hm0, HDR]
  · cases tmv with
    | Disabled =>
      cases hdr <;>
        simp [view_key, from_hdr, Nat.testBit_lor, hm0, HDR]
    | Enabled d =>
      cases d <;> cases hdr <;>
        simp [view_key, from_hdr, Nat.testBit_lor, hm0, HDR,
          TONEMAP_IN_SHADER, DEBAND_DITHER]

/-- C4: the mesh key is the same for the same view flags, topology and alpha
mode, and bevy's pipeline memoization then returns the retained handle for
that key; the TRANSPARENT_MAIN_PASS bit of the mesh key is set iff the alpha
mode is Blend, so the Opaque and Blend keys for otherwise identical inputs
are distinct. -/
theorem pipeline_key_blend_distinct (m : Nat) (hdr : Bool)
    (tm : Option Tonemapping) (topology : PrimitiveTopology) :
    (∀ alpha_mode : AlphaMode,
      (mesh_key topology (view_key m hdr tm) alpha_mode).testBit 0 = true ↔
        alpha_mode = AlphaMode.Blend) ∧
    mesh_key topology (view_key m hdr tm) AlphaMode.Opaque ≠
      mesh_key topology (view_key m hdr tm) AlphaMode.Blend ∧
    (∀ (cache : SpecializedMeshPipelines) (layout : Nat)
        (key : MaterialPipelineKey),
      (cache.specialize layout key).2.specialize layout key =
        ((cache.specialize layout key).1, (cache.specialize layout key).2)) := by
  have ht0 := from_primitive_topology_testBit topology 0 (by omega)
  have hv0 := view_key_testBit_zero m hdr tm
  simp only [Nat.testBit_zero, decide_eq_false_iff_not] at ht0 hv0
  have hiff : ∀ alpha_mode : AlphaMode,
      (mesh_key topology (view_key m hdr tm) alpha_mode).testBit 0 = true ↔
        alpha_mode = AlphaMode.Blend := by
    intro alpha_mode
    cases alpha_mode with
    | Opaque => simp [mesh_key, Nat.testBit_lor, ht0, hv0]
    | Mask threshold => simp [mesh_key, Nat.testBit_lor, ht0, hv0]
    | Blend =>
      simp [mesh_key, Nat.testBit_lor, ht0, hv0, TRANSPARENT_MAIN_PASS]
  refine ⟨hiff, ?_, ?_⟩
  · intro heq
    have h1 : (mesh_key topology (view_key m hdr tm) AlphaMode.Opaque).testBit 0 =
        false := by
      cases hb : (mesh_key topology (view_key m hdr tm) AlphaMode.Opaque).testBit 0 with
      | false => rfl
      | true => exact absurd ((hiff AlphaMode.Opaque).mp hb) (by decide)
    have h2 : (mesh_key topology (view_key m hdr tm) AlphaMode.Blend).testBit 0 =
        true := (hiff AlphaMode.Blend).mpr rfl
    rw [heq, h2] at h1
    cases h1
  · intro cache layout key
    unfold SpecializedMeshPipelines.specialize
    cases hl : lookup_pipeline cache.entries (layout, key) with
    | some id => simp [hl]
    | none => simp [hl, lookup_pipeline]

/-- Witness for C4: concrete key values for a 4x-msaa LDR view with a
triangle-list mesh, and memoization on the empty cache. -/
theorem pipeline_key_blend_distinct_witness :
    (mesh_key PrimitiveTopology.TriangleList (view_key 4 false none)
      AlphaMode.Blend).testBit 0 = true ∧
    mesh_key PrimitiveTopology.TriangleList (view_key 4 false none)
      AlphaMode.Opaque ≠
      mesh_key PrimitiveTopology.TriangleList (view_key 4 false none)
        AlphaMode.Blend ∧
    ((⟨[], 0⟩ : SpecializedMeshPipelines).specialize 0 ⟨5, 6⟩).2.specialize
        0 ⟨5, 6⟩ =
      (((⟨[], 0⟩ : SpecializedMeshPipelines).specialize 0 ⟨5, 6⟩).1,
        ((⟨[], 0⟩ : SpecializedMeshPipelines).specialize 0 ⟨5, 6⟩).2) := by
  have h := pipeline_key_blend_distinct 4 false none PrimitiveTopology.TriangleList
  exact ⟨(h.1 AlphaMode.Blend).mpr rfl, h.2.1, h.2.2 ⟨[], 0⟩ 0 ⟨5, 6⟩⟩

/-- C1 (divergence witness): in the abort scenario, entity 1's material is
not yet GPU-resident while entity 2 on its own would queue into the opaque
phase; yet running the queue stage on the view [1, 2] leaves every phase
queue empty, because the source `return`s out of the whole system instead of
skipping entity 1 and continuing with entity 2. -/
theorem queue_abort_drops_later_entities :
    abort_ctx.render_materials 10 = none ∧
    queue_entity abort_ctx (view_key 4 false none) sample_rangefinder 2
      ⟨[], [], []⟩ = EntityStep.cont
        ⟨[⟨2, 0, 7, sample_rangefinder.distance sample_uniform.transform +
          sample_material.properties.depth_bias⟩], [], []⟩ ∧
    queue_entity abort_ctx (view_key 4 false none) sample_rangefinder 1
      ⟨[], [], []⟩ = EntityStep.ret ∧
    queue_instance_material_meshes abort_ctx 4 [abort_view] =
      [⟨[], [], []⟩] := by
  exact ⟨rfl, rfl, rfl, rfl⟩

end BevyInstancing
